import Mathlib

/-!
# issuer-wallet: the deployment migration `migrations/2_deploy_contracts.js`

```
const MultiSigWallet = artifacts.require('MultiSigWallet');
const fs = require('fs');

module.exports = function (deployer) {
    const config = JSON.parse(fs.readFileSync('config.json'));
    deployer.deploy(MultiSigWallet, config.name, config.members, config.threshold, config.address);
};
```

The migration is embedded as a pure function of the collaborators it talks to:
the file system (`fs.readFileSync`), the JSON reader (`JSON.parse`) and the
deployer handed in by the framework.  Its result is the list of
`deployer.deploy` calls it made together with the exception it ended with, if
any.  Numbers are never inspected by the script, so the type of numbers `Num`
is a parameter of the whole development.
-/

set_option autoImplicit false

namespace IssuerWallet

/-! ## Values -/

/-- ECMAScript values that can occur in the script: the six kinds of value
`JSON.parse` can return, and `undefined`, the result of reading a property
that does not exist.  An object is the list of its own properties, read by the
first entry with the key. -/
inductive JSValue (Num : Type) where
  | undefined
  | null
  | bool (b : Bool)
  | number (n : Num)
  | string (s : String)
  | array (elements : List (JSValue Num))
  | object (properties : List (String × JSValue Num))

/-- Exceptions the script can end with. -/
inductive JSError where
  /-- A failed file-system call, with its code (`ENOENT`, `EACCES`, `EISDIR`, ...). -/
  | SystemError (code : String)
  /-- Thrown by `JSON.parse` on text that is not well-formed JSON. -/
  | SyntaxError
  /-- Thrown by a property read on `null` or `undefined`. -/
  | TypeError
  /-- Anything the deployer itself throws. -/
  | DeployerError (message : String)
  deriving DecidableEq, Repr

/-- A contract abstraction, as returned by `artifacts.require`. -/
structure Artifact where
  contractName : String
  deriving DecidableEq, Repr

/-- One call `deployer.deploy(contract, ...args)`. -/
structure DeployCall (Num : Type) where
  contract : Artifact
  args : List (JSValue Num)

/-! ## Collaborators -/

/-- The two library functions the script calls.
`fs_readFileSync path` is the content of the file, or the code of the system
error it throws.  `JSON_parse text` is the parsed value, or `none` when it
throws a `SyntaxError`. -/
structure Host (Num : Type) where
  fs_readFileSync : String → Except String String
  JSON_parse : String → Option (JSValue Num)

/-- The deployer the framework passes to the migration, an object with a `deploy`
method: `deploy` returns normally (`none`) or throws.  Its return value is not used
by the script. -/
structure Deployer (Num : Type) where
  deploy : DeployCall Num → Option JSError

/-- What one run of the migration did: the `deployer.deploy` calls made, in
order, and the exception that ended the run, if any. -/
structure Outcome (Num : Type) where
  deployCalls : List (DeployCall Num)
  thrown : Option JSError

variable {Num : Type}

/-! ## The script -/

/-- Value of the own property `key` of an object with the given property list,
`undefined` when there is none. -/
def ownProperty (properties : List (String × JSValue Num)) (key : String) : JSValue Num :=
  match properties.lookup key with
  | some v => v
  | none => .undefined

/-- The property read `value.key`, for a key that none of the built-in
prototypes defines and that is neither `length` nor an index (the four keys the
script reads are such).  Reading from `null` or `undefined` throws a
`TypeError`; numbers, booleans, strings and arrays have no such property. -/
def JSValue.get (value : JSValue Num) (key : String) : Except JSError (JSValue Num) :=
  match value with
  | .undefined => .error .TypeError
  | .null => .error .TypeError
  | .object properties => .ok (ownProperty properties key)
  | _ => .ok .undefined

/-- Line 1: `artifacts.require(name)`. -/
def artifacts_require (name : String) : Artifact := ⟨name⟩

/-- Line 1: `const MultiSigWallet = artifacts.require('MultiSigWallet')`. -/
def MultiSigWallet : Artifact := artifacts_require "MultiSigWallet"

/-- Line 6, the arguments after `MultiSigWallet`, evaluated left to right:
`config.name, config.members, config.threshold, config.address`. -/
def configArguments (config : JSValue Num) : Except JSError (List (JSValue Num)) := do
  let name ← config.get "name"
  let members ← config.get "members"
  let threshold ← config.get "threshold"
  let address ← config.get "address"
  pure [name, members, threshold, address]

/-- Lines 4-7: `module.exports = function (deployer) { ... }`. -/
def module.exports (host : Host Num) (deployer : Deployer Num) : Outcome Num :=
  match host.fs_readFileSync "config.json" with
  | .error code => { deployCalls := [], thrown := some (.SystemError code) }
  | .ok data =>
    match host.JSON_parse data with
    | none => { deployCalls := [], thrown := some .SyntaxError }
    | some config =>
      match configArguments config with
      | .error e => { deployCalls := [], thrown := some e }
      | .ok args =>
        let call : DeployCall Num := { contract := MultiSigWallet, args := args }
        { deployCalls := [call], thrown := deployer.deploy call }

/-! ## Vocabulary of the specification -/

/-- The recognised keys in the fixed order of the outbound call (spec §6):
`(name, members, threshold, address)`. -/
def configKeys : List String := ["name", "members", "threshold", "address"]

/-- Invariant of `threshold` (spec §3): `1 <= threshold <= length(members)`. -/
def thresholdInRange [NatCast Num] [LE Num] (threshold : Num)
    (members : List (JSValue Num)) : Prop :=
  ((1 : Nat) : Num) ≤ threshold ∧ threshold ≤ ((members.length : Nat) : Num)

/-! ## Test doubles and the scenarios of spec §8 -/

/-- A file system holding the single file `config.json` with the given text,
next to a JSON reader that knows the parse of that text. -/
def hostWith (text : String) (parsed : Option (JSValue Num)) : Host Num where
  fs_readFileSync := fun path => if path = "config.json" then .ok text else .error "ENOENT"
  JSON_parse := fun input => if input = text then parsed else none

/-- A file system without `config.json`. -/
def hostWithoutFile : Host Num where
  fs_readFileSync := fun _ => .error "ENOENT"
  JSON_parse := fun _ => none

/-- A deployer whose `deploy` returns normally. -/
def quietDeployer : Deployer Num := ⟨fun _ => none⟩

/-- A deployer whose `deploy` throws. -/
def failingDeployer : Deployer Num := ⟨fun _ => some (.DeployerError "revert")⟩

/-- Scenario A: `name:"Treasury", members:["0xA1","0xB2","0xC3"], threshold:2`. -/
def scenarioA : List (String × JSValue Int) :=
  [("name", .string "Treasury"),
   ("members", .array [.string "0xA1", .string "0xB2", .string "0xC3"]),
   ("threshold", .number 2)]

/-- Scenario B: `name:"Treasury", members:["0xA1","0xA1"], threshold:1`. -/
def scenarioB : List (String × JSValue Int) :=
  [("name", .string "Treasury"),
   ("members", .array [.string "0xA1", .string "0xA1"]),
   ("threshold", .number 1)]

/-- Scenario C: `name:"Treasury", members:[], threshold:1`. -/
def scenarioC : List (String × JSValue Int) :=
  [("name", .string "Treasury"), ("members", .array []), ("threshold", .number 1)]

/-- Scenario D: `name:"Treasury", members:["0xA1","0xB2"], threshold:5`. -/
def scenarioD : List (String × JSValue Int) :=
  [("name", .string "Treasury"),
   ("members", .array [.string "0xA1", .string "0xB2"]),
   ("threshold", .number 5)]

/-- The text of Scenario A. -/
def textA : String :=
  "\x7b\"name\":\"Treasury\",\"members\":[\"0xA1\",\"0xB2\",\"0xC3\"],\"threshold\":2\x7d"

/-- The text of Scenario B. -/
def textB : String :=
  "\x7b\"name\":\"Treasury\",\"members\":[\"0xA1\",\"0xA1\"],\"threshold\":1\x7d"

/-- The text of Scenario C. -/
def textC : String :=
  "\x7b\"name\":\"Treasury\",\"members\":[],\"threshold\":1\x7d"

/-- The text of Scenario D. -/
def textD : String :=
  "\x7b\"name\":\"Treasury\",\"members\":[\"0xA1\",\"0xB2\"],\"threshold\":5\x7d"

/-- Scenario D with threshold 0. -/
def zeroThreshold : List (String × JSValue Int) :=
  [("name", .string "Treasury"),
   ("members", .array [.string "0xA1", .string "0xB2"]),
   ("threshold", .number 0)]

def textZeroThreshold : String :=
  "\x7b\"name\":\"Treasury\",\"members\":[\"0xA1\",\"0xB2\"],\"threshold\":0\x7d"

/-- Three members, the first and the last the same address. -/
def repeatedMember : List (String × JSValue Int) :=
  [("name", .string "Ops"),
   ("members", .array [.string "0xB2", .string "0xA1", .string "0xB2"]),
   ("threshold", .number 2)]

def textRepeatedMember : String :=
  "\x7b\"name\":\"Ops\",\"members\":[\"0xB2\",\"0xA1\",\"0xB2\"],\"threshold\":2\x7d"

/-- A configuration without the key `name`. -/
def withoutName : List (String × JSValue Int) :=
  [("members", .array [.string "0xA1"]), ("threshold", .number 1)]

def textWithoutName : String :=
  "\x7b\"members\":[\"0xA1\"],\"threshold\":1\x7d"

/-- A configuration without the key `members`. -/
def withoutMembers : List (String × JSValue Int) :=
  [("name", .string "Treasury"), ("threshold", .number 1)]

def textWithoutMembers : String :=
  "\x7b\"name\":\"Treasury\",\"threshold\":1\x7d"

/-- A configuration without the key `threshold`. -/
def withoutThreshold : List (String × JSValue Int) :=
  [("name", .string "Treasury"), ("members", .array [.string "0xA1"])]

def textWithoutThreshold : String :=
  "\x7b\"name\":\"Treasury\",\"members\":[\"0xA1\"]\x7d"

/-- No members and threshold 0. -/
def noMembers : List (String × JSValue Int) :=
  [("name", .string "Ops"), ("members", .array []), ("threshold", .number 0)]

def textNoMembers : String :=
  "\x7b\"name\":\"Ops\",\"members\":[],\"threshold\":0\x7d"

/-- Text that is not well-formed JSON: an object cut off after its first key. -/
def textCutOff : String := "\x7b\"name\":"

/-- Scenario A with an `address`. -/
def withAddress : List (String × JSValue Int) :=
  [("name", .string "Treasury"),
   ("members", .array [.string "0xA1", .string "0xB2", .string "0xC3"]),
   ("threshold", .number 2),
   ("address", .string "0xD4")]

def textWithAddress : String :=
  "\x7b\"name\":\"Treasury\",\"members\":[\"0xA1\",\"0xB2\",\"0xC3\"],\"threshold\":2,\"address\":\"0xD4\"\x7d"

/-- The configuration `withAddress` with its keys in another order and two keys
the script does not read. -/
def withExtraKeys : List (String × JSValue Int) :=
  [("owner", .string "0xE5"),
   ("address", .string "0xD4"),
   ("threshold", .number 2),
   ("members", .array [.string "0xA1", .string "0xB2", .string "0xC3"]),
   ("name", .string "Treasury"),
   ("network", .object [("name", .string "mainnet")])]

def textWithExtraKeys : String :=
  "\x7b\"owner\":\"0xE5\",\"address\":\"0xD4\",\"threshold\":2,\"members\":[\"0xA1\",\"0xB2\",\"0xC3\"],\"name\":\"Treasury\",\"network\":\x7b\"name\":\"mainnet\"\x7d\x7d"

/-- The deploy call with all four configuration arguments `undefined`. -/
def undefinedCall : DeployCall Num :=
  ⟨MultiSigWallet, [.undefined, .undefined, .undefined, .undefined]⟩

/-! ## Basic facts about the script -/

theorem configArguments_object (properties : List (String × JSValue Num)) :
    configArguments (.object properties) =
      .ok [ownProperty properties "name", ownProperty properties "members",
           ownProperty properties "threshold", ownProperty properties "address"] := rfl

theorem exports_of_object (host : Host Num) (deployer : Deployer Num) (data : String)
    (properties : List (String × JSValue Num))
    (hread : host.fs_readFileSync "config.json" = .ok data)
    (hparse : host.JSON_parse data = some (.object properties)) :
    module.exports host deployer =
      { deployCalls := [⟨MultiSigWallet, [ownProperty properties "name",
            ownProperty properties "members", ownProperty properties "threshold",
            ownProperty properties "address"]⟩],
        thrown := deployer.deploy ⟨MultiSigWallet, [ownProperty properties "name",
            ownProperty properties "members", ownProperty properties "threshold",
            ownProperty properties "address"]⟩ } := by
  simp [module.exports, hread, hparse, configArguments_object]

theorem exports_of_null (host : Host Num) (deployer : Deployer Num) (data : String)
    (hread : host.fs_readFileSync "config.json" = .ok data)
    (hparse : host.JSON_parse data = some .null) :
    module.exports host deployer = { deployCalls := [], thrown := some .TypeError } := by
  simp [module.exports, hread, hparse, configArguments, JSValue.get, bind, Except.bind]

theorem ownProperty_of_lookup_some (properties : List (String × JSValue Num)) (key : String)
    (v : JSValue Num) (h : properties.lookup key = some v) : ownProperty properties key = v := by
  simp [ownProperty, h]

theorem ownProperty_of_lookup_none (properties : List (String × JSValue Num)) (key : String)
    (h : properties.lookup key = none) : ownProperty properties key = .undefined := by
  simp [ownProperty, h]

/-- Position by position, the keys of `configKeys` and the values read under them. -/
theorem map_ownProperty_getElem? (properties : List (String × JSValue Num)) (i : Nat)
    (key : String) (hkey : configKeys[i]? = some key) :
    (configKeys.map (ownProperty properties))[i]? = some (ownProperty properties key) := by
  simp [List.getElem?_map, hkey]

theorem exports_of_non_object (host : Host Num) (deployer : Deployer Num) (data : String)
    (config : JSValue Num)
    (hread : host.fs_readFileSync "config.json" = .ok data)
    (hparse : host.JSON_parse data = some config)
    (hkind : (∃ n, config = .number n) ∨ (∃ b, config = .bool b) ∨
      (∃ s, config = .string s) ∨ (∃ elements, config = .array elements)) :
    module.exports host deployer =
      { deployCalls := [undefinedCall], thrown := deployer.deploy undefinedCall } := by
  rcases hkind with ⟨n, rfl⟩ | ⟨b, rfl⟩ | ⟨s, rfl⟩ | ⟨elements, rfl⟩ <;>
    simp [module.exports, hread, hparse, configArguments, JSValue.get, bind, Except.bind,
      pure, Except.pure, undefinedCall]

/-- The arguments of the only deploy call, position by position. -/
theorem args_getElem?_of_object (properties : List (String × JSValue Num)) (i : Nat)
    (key : String) (hkey : configKeys[i]? = some key) :
    [ownProperty properties "name", ownProperty properties "members",
      ownProperty properties "threshold", ownProperty properties "address"][i]? =
        some (ownProperty properties key) := by
  have h := map_ownProperty_getElem? properties i key hkey
  simpa [configKeys] using h

/-! ## The claims -/

/-- C1: when `config.json` parses to an object, the migration makes exactly one
`deployer.deploy` call; its arguments are the `MultiSigWallet` artifact followed by
the values of the keys `name`, `members`, `threshold`, `address` in this order, and
argument `i` is the value read under the `i`-th of these keys. -/
theorem C1_single_deploy_call_in_fixed_order (host : Host Num) (deployer : Deployer Num)
    (data : String) (properties : List (String × JSValue Num))
    (hread : host.fs_readFileSync "config.json" = .ok data)
    (hparse : host.JSON_parse data = some (.object properties)) :
    (module.exports host deployer).deployCalls =
        [⟨MultiSigWallet, [ownProperty properties "name", ownProperty properties "members",
          ownProperty properties "threshold", ownProperty properties "address"]⟩] ∧
      ∀ call ∈ (module.exports host deployer).deployCalls,
        ∀ (i : Nat) (key : String), configKeys[i]? = some key →
          call.args[i]? = some (ownProperty properties key) := by
  rw [exports_of_object host deployer data properties hread hparse]
  refine ⟨rfl, ?_⟩
  intro call hcall i key hkey
  rw [List.mem_singleton] at hcall
  subst hcall
  exact args_getElem?_of_object properties i key hkey

theorem C1_witness :
    (module.exports (hostWith textA (some (.object scenarioA))) quietDeployer).deployCalls =
        [⟨MultiSigWallet, [ownProperty scenarioA "name", ownProperty scenarioA "members",
          ownProperty scenarioA "threshold", ownProperty scenarioA "address"]⟩] ∧
      ∀ call ∈ (module.exports (hostWith textA (some (.object scenarioA)))
          quietDeployer).deployCalls,
        ∀ (i : Nat) (key : String), configKeys[i]? = some key →
          call.args[i]? = some (ownProperty scenarioA key) :=
  C1_single_deploy_call_in_fixed_order (hostWith textA (some (.object scenarioA)))
    quietDeployer textA scenarioA rfl (by simp [hostWith])

/-- C2, as stated, fails on Scenario D: with members `["0xA1","0xB2"]` the threshold 5
is out of range, yet the migration makes the deploy call with threshold 5 and ends
without an exception. -/
theorem C2_counterexample :
    ¬ thresholdInRange (5 : Int) [(.string "0xA1" : JSValue Int), .string "0xB2"] ∧
      module.exports (hostWith textD (some (.object scenarioD))) quietDeployer =
        { deployCalls := [⟨MultiSigWallet, [.string "Treasury",
            .array [.string "0xA1", .string "0xB2"], .number 5, .undefined]⟩],
          thrown := none } := by
  refine ⟨?_, rfl⟩
  simp [thresholdInRange]

/-- C2, amended: the migration makes no range check on `threshold`.  For a parsed
object whose threshold lies outside `1 <= threshold <= length(members)`, exactly one
deploy call is made, carrying the members and the threshold as parsed, and the run
ends as the deployer does, never with an exception of the migration itself. -/
theorem C2_out_of_range_threshold_is_deployed [NatCast Num] [LE Num]
    (host : Host Num) (deployer : Deployer Num) (data : String)
    (properties : List (String × JSValue Num)) (threshold : Num)
    (members : List (JSValue Num))
    (hread : host.fs_readFileSync "config.json" = .ok data)
    (hparse : host.JSON_parse data = some (.object properties))
    (hmembers : properties.lookup "members" = some (.array members))
    (hthreshold : properties.lookup "threshold" = some (.number threshold))
    (_hrange : ¬ thresholdInRange threshold members) :
    module.exports host deployer =
      { deployCalls := [⟨MultiSigWallet, [ownProperty properties "name", .array members,
            .number threshold, ownProperty properties "address"]⟩],
        thrown := deployer.deploy ⟨MultiSigWallet, [ownProperty properties "name",
            .array members, .number threshold, ownProperty properties "address"]⟩ } := by
  rw [exports_of_object host deployer data properties hread hparse,
    ownProperty_of_lookup_some properties "members" _ hmembers,
    ownProperty_of_lookup_some properties "threshold" _ hthreshold]

theorem C2_witness :
    module.exports (hostWith textZeroThreshold (some (.object zeroThreshold))) quietDeployer =
      { deployCalls := [⟨MultiSigWallet, [.string "Treasury",
          .array [.string "0xA1", .string "0xB2"], .number 0, .undefined]⟩],
        thrown := none } :=
  C2_out_of_range_threshold_is_deployed
    (hostWith textZeroThreshold (some (.object zeroThreshold))) quietDeployer
    textZeroThreshold zeroThreshold 0 [.string "0xA1", .string "0xB2"]
    rfl (by simp [hostWith]) rfl rfl (by simp [thresholdInRange])

/-- C3, as stated, fails on Scenario B: the members list `["0xA1","0xA1"]` repeats an
address, yet the migration calls `deployer.deploy` with exactly this list and ends
without an exception. -/
theorem C3_counterexample :
    ¬ [(.string "0xA1" : JSValue Int), .string "0xA1"].Nodup ∧
      module.exports (hostWith textB (some (.object scenarioB))) quietDeployer =
        { deployCalls := [⟨MultiSigWallet, [.string "Treasury",
            .array [.string "0xA1", .string "0xA1"], .number 1, .undefined]⟩],
          thrown := none } := by
  refine ⟨?_, rfl⟩
  simp

/-- C3, amended: the migration does not compare members.  For a parsed object whose
members list repeats an entry, exactly one deploy call is made, carrying the list
with its repeated entry as parsed, and the run ends as the deployer does. -/
theorem C3_repeated_member_is_deployed
    (host : Host Num) (deployer : Deployer Num) (data : String)
    (properties : List (String × JSValue Num)) (members : List (JSValue Num))
    (hread : host.fs_readFileSync "config.json" = .ok data)
    (hparse : host.JSON_parse data = some (.object properties))
    (hmembers : properties.lookup "members" = some (.array members))
    (_hrepeat : ¬ members.Nodup) :
    module.exports host deployer =
      { deployCalls := [⟨MultiSigWallet, [ownProperty properties "name", .array members,
            ownProperty properties "threshold", ownProperty properties "address"]⟩],
        thrown := deployer.deploy ⟨MultiSigWallet, [ownProperty properties "name",
            .array members, ownProperty properties "threshold",
            ownProperty properties "address"]⟩ } := by
  rw [exports_of_object host deployer data properties hread hparse,
    ownProperty_of_lookup_some properties "members" _ hmembers]

theorem C3_witness :
    module.exports (hostWith textRepeatedMember (some (.object repeatedMember)))
        quietDeployer =
      { deployCalls := [⟨MultiSigWallet, [.string "Ops",
          .array [.string "0xB2", .string "0xA1", .string "0xB2"], .number 2, .undefined]⟩],
        thrown := none } :=
  C3_repeated_member_is_deployed
    (hostWith textRepeatedMember (some (.object repeatedMember))) quietDeployer
    textRepeatedMember repeatedMember [.string "0xB2", .string "0xA1", .string "0xB2"]
    rfl (by simp [hostWith]) rfl (by simp)

/-- C4, as stated, fails on objects that lack `name`, `members` or `threshold`: in each
case the migration makes the deploy call, with `undefined` in the place of the absent
key, and ends without an exception. -/
theorem C4_counterexample :
    module.exports (hostWith textWithoutName (some (.object withoutName))) quietDeployer =
        { deployCalls := [⟨MultiSigWallet,
            [.undefined, .array [.string "0xA1"], .number 1, .undefined]⟩],
          thrown := none } ∧
      module.exports (hostWith textWithoutMembers (some (.object withoutMembers)))
          quietDeployer =
        { deployCalls := [⟨MultiSigWallet,
            [.string "Treasury", .undefined, .number 1, .undefined]⟩],
          thrown := none } ∧
      module.exports (hostWith textWithoutThreshold (some (.object withoutThreshold)))
          quietDeployer =
        { deployCalls := [⟨MultiSigWallet,
            [.string "Treasury", .array [.string "0xA1"], .undefined, .undefined]⟩],
          thrown := none } :=
  ⟨rfl, rfl, rfl⟩

/-- C4, amended: the migration does not check that a key is present.  For a parsed
object that lacks one of the keys `name`, `members`, `threshold`, `address` (the key
at position `i` of the fixed order), exactly one deploy call is made, its argument
for that key is `undefined`, and the run ends as the deployer does; this holds for
`address` as for the other three. -/
theorem C4_absent_key_is_deployed_as_undefined
    (host : Host Num) (deployer : Deployer Num) (data : String)
    (properties : List (String × JSValue Num)) (i : Nat) (key : String)
    (hread : host.fs_readFileSync "config.json" = .ok data)
    (hparse : host.JSON_parse data = some (.object properties))
    (hkey : configKeys[i]? = some key)
    (habsent : properties.lookup key = none) :
    ∃ call : DeployCall Num,
      module.exports host deployer =
          { deployCalls := [call], thrown := deployer.deploy call } ∧
        call.contract = MultiSigWallet ∧ call.args.length = 4 ∧
        call.args[i]? = some .undefined := by
  refine ⟨⟨MultiSigWallet, [ownProperty properties "name", ownProperty properties "members",
    ownProperty properties "threshold", ownProperty properties "address"]⟩,
    exports_of_object host deployer data properties hread hparse, rfl, rfl, ?_⟩
  rw [← ownProperty_of_lookup_none properties key habsent]
  exact args_getElem?_of_object properties i key hkey

theorem C4_witness :
    ∃ call : DeployCall Int,
      module.exports (hostWith textWithoutThreshold (some (.object withoutThreshold)))
            failingDeployer =
          { deployCalls := [call], thrown := failingDeployer.deploy call } ∧
        call.contract = MultiSigWallet ∧ call.args.length = 4 ∧
        call.args[2]? = some .undefined :=
  C4_absent_key_is_deployed_as_undefined
    (hostWith textWithoutThreshold (some (.object withoutThreshold))) failingDeployer
    textWithoutThreshold withoutThreshold 2 "threshold" rfl (by simp [hostWith]) rfl rfl

/-- C5, as stated, fails on Scenario C: with `members: []` the migration calls
`deployer.deploy` with the empty members list and ends without an exception. -/
theorem C5_counterexample :
    module.exports (hostWith textC (some (.object scenarioC))) quietDeployer =
      { deployCalls := [⟨MultiSigWallet,
          [.string "Treasury", .array [], .number 1, .undefined]⟩],
        thrown := none } :=
  rfl

/-- C5, amended: the migration does not look at the length of `members`.  For a
parsed object whose members list has zero entries, exactly one deploy call is made,
with the empty list as its members argument, and the run ends as the deployer
does. -/
theorem C5_empty_members_is_deployed
    (host : Host Num) (deployer : Deployer Num) (data : String)
    (properties : List (String × JSValue Num))
    (hread : host.fs_readFileSync "config.json" = .ok data)
    (hparse : host.JSON_parse data = some (.object properties))
    (hmembers : properties.lookup "members" = some (.array [])) :
    module.exports host deployer =
      { deployCalls := [⟨MultiSigWallet, [ownProperty properties "name", .array [],
            ownProperty properties "threshold", ownProperty properties "address"]⟩],
        thrown := deployer.deploy ⟨MultiSigWallet, [ownProperty properties "name",
            .array [], ownProperty properties "threshold",
            ownProperty properties "address"]⟩ } := by
  rw [exports_of_object host deployer data properties hread hparse,
    ownProperty_of_lookup_some properties "members" _ hmembers]

theorem C5_witness :
    module.exports (hostWith textNoMembers (some (.object noMembers))) quietDeployer =
      { deployCalls := [⟨MultiSigWallet, [.string "Ops", .array [], .number 0, .undefined]⟩],
        thrown := none } :=
  C5_empty_members_is_deployed (hostWith textNoMembers (some (.object noMembers)))
    quietDeployer textNoMembers noMembers rfl (by simp [hostWith]) rfl

/-- C6: when `config.json` does not exist (`fs.readFileSync` throws `ENOENT`) the
migration ends with that system error, and when the file exists but its content is
not well-formed JSON (`JSON.parse` throws) it ends with a `SyntaxError`; in both
cases no `deployer.deploy` call has been made. -/
theorem C6_load_failure_precedes_deploy (host : Host Num) (deployer : Deployer Num) :
    (host.fs_readFileSync "config.json" = .error "ENOENT" →
        module.exports host deployer =
          { deployCalls := [], thrown := some (.SystemError "ENOENT") }) ∧
      (∀ data : String, host.fs_readFileSync "config.json" = .ok data →
        host.JSON_parse data = none →
        module.exports host deployer =
          { deployCalls := [], thrown := some .SyntaxError }) := by
  constructor
  · intro hread
    simp [module.exports, hread]
  · intro data hread hparse
    simp [module.exports, hread, hparse]

theorem C6_witness :
    module.exports (hostWithoutFile : Host Int) quietDeployer =
        { deployCalls := [], thrown := some (.SystemError "ENOENT") } ∧
      module.exports (hostWith textCutOff (none : Option (JSValue Int))) quietDeployer =
        { deployCalls := [], thrown := some .SyntaxError } :=
  ⟨(C6_load_failure_precedes_deploy hostWithoutFile quietDeployer).1 rfl,
   (C6_load_failure_precedes_deploy (hostWith textCutOff none) quietDeployer).2
      textCutOff rfl (by simp [hostWith])⟩

/-- C7: when `config.json` parses to an object, each value the object holds under
one of the keys `name`, `members`, `threshold`, `address` is handed to the one
`deployer.deploy` call at that key's position as the very value parsed: a members
list with the same elements in the same order, a threshold as the same number. -/
theorem C7_arguments_equal_parsed_values
    (host : Host Num) (deployer : Deployer Num) (data : String)
    (properties : List (String × JSValue Num)) (i : Nat) (key : String) (v : JSValue Num)
    (hread : host.fs_readFileSync "config.json" = .ok data)
    (hparse : host.JSON_parse data = some (.object properties))
    (hkey : configKeys[i]? = some key)
    (hvalue : properties.lookup key = some v) :
    ∃ call : DeployCall Num,
      (module.exports host deployer).deployCalls = [call] ∧ call.args.length = 4 ∧
        call.args[i]? = some v := by
  have hi : [ownProperty properties "name", ownProperty properties "members",
      ownProperty properties "threshold", ownProperty properties "address"][i]? = some v := by
    rw [← ownProperty_of_lookup_some properties key v hvalue]
    exact args_getElem?_of_object properties i key hkey
  refine ⟨⟨MultiSigWallet, [ownProperty properties "name", ownProperty properties "members",
    ownProperty properties "threshold", ownProperty properties "address"]⟩, ?_, rfl, hi⟩
  rw [exports_of_object host deployer data properties hread hparse]

theorem C7_witness :
    ∃ call : DeployCall Int,
      (module.exports (hostWith textWithAddress (some (.object withAddress)))
          quietDeployer).deployCalls = [call] ∧ call.args.length = 4 ∧
        call.args[1]? = some (.array [.string "0xA1", .string "0xB2", .string "0xC3"]) :=
  C7_arguments_equal_parsed_values (hostWith textWithAddress (some (.object withAddress)))
    quietDeployer textWithAddress withAddress 1 "members"
    (.array [.string "0xA1", .string "0xB2", .string "0xC3"])
    rfl (by simp [hostWith]) rfl rfl

/-- C8: a parsed object that has a `name`, a non-empty members list without repeated
entries and a threshold with `1 <= threshold <= length(members)`, but no key
`address`, is deployed: exactly one deploy call is made, with the name, the members
and the threshold as parsed and `undefined` (not an empty string, not a zero
address) as the address argument, and the migration raises no exception of its
own. -/
theorem C8_valid_config_without_address_is_deployed [NatCast Num] [LE Num]
    (host : Host Num) (deployer : Deployer Num) (data : String)
    (properties : List (String × JSValue Num)) (name : JSValue Num) (threshold : Num)
    (members : List (JSValue Num))
    (hread : host.fs_readFileSync "config.json" = .ok data)
    (hparse : host.JSON_parse data = some (.object properties))
    (hname : properties.lookup "name" = some name)
    (hmembers : properties.lookup "members" = some (.array members))
    (hthreshold : properties.lookup "threshold" = some (.number threshold))
    (haddress : properties.lookup "address" = none)
    (_hnonempty : members ≠ [])
    (_hdistinct : members.Nodup)
    (_hrange : thresholdInRange threshold members) :
    module.exports host deployer =
      { deployCalls := [⟨MultiSigWallet, [name, .array members, .number threshold,
            .undefined]⟩],
        thrown := deployer.deploy ⟨MultiSigWallet, [name, .array members,
            .number threshold, .undefined]⟩ } := by
  rw [exports_of_object host deployer data properties hread hparse,
    ownProperty_of_lookup_some properties "name" _ hname,
    ownProperty_of_lookup_some properties "members" _ hmembers,
    ownProperty_of_lookup_some properties "threshold" _ hthreshold,
    ownProperty_of_lookup_none properties "address" haddress]

theorem C8_witness :
    module.exports (hostWith textA (some (.object scenarioA))) quietDeployer =
      { deployCalls := [⟨MultiSigWallet, [.string "Treasury",
          .array [.string "0xA1", .string "0xB2", .string "0xC3"], .number 2, .undefined]⟩],
        thrown := none } :=
  C8_valid_config_without_address_is_deployed (hostWith textA (some (.object scenarioA)))
    quietDeployer textA scenarioA (.string "Treasury") 2
    [.string "0xA1", .string "0xB2", .string "0xC3"]
    rfl (by simp [hostWith]) rfl rfl rfl rfl (by simp) (by simp)
    (by simp [thresholdInRange])

/-- C9: when `config.json` holds well-formed JSON that is not an object, the
migration reports no configuration error of its own.  For `null` the first property
read throws a `TypeError` and no deploy call is made; for a number, a boolean, a
string or an array exactly one deploy call is made, with `undefined` for all four of
name, members, threshold and address, and the run ends as the deployer does. -/
theorem C9_non_object_json (host : Host Num) (deployer : Deployer Num) (data : String)
    (config : JSValue Num)
    (hread : host.fs_readFileSync "config.json" = .ok data)
    (hparse : host.JSON_parse data = some config) :
    (config = .null →
        module.exports host deployer = { deployCalls := [], thrown := some .TypeError }) ∧
      (((∃ n, config = .number n) ∨ (∃ b, config = .bool b) ∨ (∃ s, config = .string s) ∨
          (∃ elements, config = .array elements)) →
        module.exports host deployer =
          { deployCalls := [⟨MultiSigWallet,
              [.undefined, .undefined, .undefined, .undefined]⟩],
            thrown := deployer.deploy ⟨MultiSigWallet,
              [.undefined, .undefined, .undefined, .undefined]⟩ }) := by
  constructor
  · intro hnull
    subst hnull
    exact exports_of_null host deployer data hread hparse
  · intro hkind
    exact exports_of_non_object host deployer data config hread hparse hkind

theorem C9_witness :
    module.exports (hostWith "null" (some (.null : JSValue Int))) quietDeployer =
        { deployCalls := [], thrown := some .TypeError } ∧
      module.exports (hostWith "7" (some (.number 7 : JSValue Int))) quietDeployer =
        { deployCalls := [undefinedCall], thrown := none } ∧
      module.exports (hostWith "true" (some (.bool true : JSValue Int))) quietDeployer =
        { deployCalls := [undefinedCall], thrown := none } ∧
      module.exports (hostWith "\"0xA1\"" (some (.string "0xA1" : JSValue Int)))
          quietDeployer =
        { deployCalls := [undefinedCall], thrown := none } ∧
      module.exports (hostWith "[\"0xA1\"]" (some (.array [.string "0xA1"] : JSValue Int)))
          failingDeployer =
        { deployCalls := [undefinedCall], thrown := some (.DeployerError "revert") } :=
  ⟨(C9_non_object_json (hostWith "null" (some .null)) quietDeployer "null" .null
      rfl (by simp [hostWith])).1 rfl,
   (C9_non_object_json (hostWith "7" (some (.number 7))) quietDeployer "7" (.number 7)
      rfl (by simp [hostWith])).2 (Or.inl ⟨7, rfl⟩),
   (C9_non_object_json (hostWith "true" (some (.bool true))) quietDeployer "true"
      (.bool true) rfl (by simp [hostWith])).2 (Or.inr (Or.inl ⟨true, rfl⟩)),
   (C9_non_object_json (hostWith "\"0xA1\"" (some (.string "0xA1"))) quietDeployer
      "\"0xA1\"" (.string "0xA1") rfl (by simp [hostWith])).2
      (Or.inr (Or.inr (Or.inl ⟨"0xA1", rfl⟩))),
   (C9_non_object_json (hostWith "[\"0xA1\"]" (some (.array [.string "0xA1"])))
      failingDeployer "[\"0xA1\"]" (.array [.string "0xA1"]) rfl (by simp [hostWith])).2
      (Or.inr (Or.inr (Or.inr ⟨[.string "0xA1"], rfl⟩)))⟩

/-- C10: two runs of the migration whose `config.json` parse to objects that read the
same under each of `name`, `members`, `threshold` and `address` make the same
`deployer.deploy` call, whatever other keys the two objects hold, in whatever order,
and whatever the two deployers are. -/
theorem C10_call_depends_only_on_the_four_keys
    (host₁ host₂ : Host Num) (deployer₁ deployer₂ : Deployer Num) (data₁ data₂ : String)
    (properties₁ properties₂ : List (String × JSValue Num))
    (hread₁ : host₁.fs_readFileSync "config.json" = .ok data₁)
    (hparse₁ : host₁.JSON_parse data₁ = some (.object properties₁))
    (hread₂ : host₂.fs_readFileSync "config.json" = .ok data₂)
    (hparse₂ : host₂.JSON_parse data₂ = some (.object properties₂))
    (hagree : ∀ key ∈ configKeys, ownProperty properties₁ key = ownProperty properties₂ key) :
    (module.exports host₁ deployer₁).deployCalls =
      (module.exports host₂ deployer₂).deployCalls := by
  rw [exports_of_object host₁ deployer₁ data₁ properties₁ hread₁ hparse₁,
    exports_of_object host₂ deployer₂ data₂ properties₂ hread₂ hparse₂,
    hagree "name" (by simp [configKeys]), hagree "members" (by simp [configKeys]),
    hagree "threshold" (by simp [configKeys]), hagree "address" (by simp [configKeys])]

theorem C10_witness :
    (module.exports (hostWith textWithAddress (some (.object withAddress)))
        quietDeployer).deployCalls =
      (module.exports (hostWith textWithExtraKeys (some (.object withExtraKeys)))
        failingDeployer).deployCalls :=
  C10_call_depends_only_on_the_four_keys
    (hostWith textWithAddress (some (.object withAddress)))
    (hostWith textWithExtraKeys (some (.object withExtraKeys)))
    quietDeployer failingDeployer textWithAddress textWithExtraKeys withAddress withExtraKeys
    rfl (by simp [hostWith]) rfl (by simp [hostWith])
    (by
      intro key hkey
      simp only [configKeys, List.mem_cons, List.mem_singleton, List.not_mem_nil, or_false]
        at hkey
      rcases hkey with rfl | rfl | rfl | rfl <;> rfl)

end IssuerWallet
